import Mathlib

/-!
Verification of the quizly flashcard client's deck/folder state-management
logic (src/Frontend/src/pages/Decks.tsx, src/Frontend/src/lib/api.ts) and the
flashcard-generation form (FlashcardGenerator), as a shallow embedding in
Lean 4.  JavaScript optional/nullable fields become `Option`, JS falsiness of
an optional string (`!x`: undefined, null, or "") is made explicit, and each
React handler is modelled as a pure function from the component state and the
server's responses to the new state plus a trace of its observable effects
(API calls, state updates, toasts).
-/

namespace Quizly

/-- The client-side `Deck` record (interface Deck in Decks.tsx). -/
structure Deck where
  id : String
  title : String
  numFlashcards : Nat
  difficulty : String
  questionType : String
  createdAt : String
  folder_id : Option String := none
  order_index : Option Int := none
  podcast_audio_url : Option String := none
deriving Repr, DecidableEq

/-- The client-side `Folder` record (interface Folder in Decks.tsx). -/
structure Folder where
  id : String
  name : String
  deck_count : Nat
  created_at : String
deriving Repr, DecidableEq

/-- A raw deck record as returned by GET /decks/my-decks, before the client
transforms it (the `any` shape used in fetchDecks). -/
structure ServerDeck where
  id : String
  title : String
  flashcard_count : Option Nat := none
  description : Option String := none
  created_at : String
  folder_id : Option String := none
  order_index : Option Int := none
  podcast_audio_url : Option String := none
deriving Repr, DecidableEq

/-- Substring test on character lists: JS `String.prototype.includes`. -/
def listContainsSub (pat : List Char) : List Char → Bool
  | [] => pat.isEmpty
  | c :: cs => pat.isPrefixOf (c :: cs) || listContainsSub pat cs

/-- JS `s.includes(pat)`. -/
def strIncludes (s pat : String) : Bool :=
  listContainsSub pat.data s.data

/-- JS `o?.includes(pat)` under a boolean test: undefined/null yields false. -/
def optIncludes (o : Option String) (pat : String) : Bool :=
  match o with
  | none => false
  | some s => strIncludes s pat

/-- JS falsiness of an optional string (`!x`): undefined, null, or "". -/
def isFalsyStr : Option String → Bool
  | none => true
  | some s => s == ""

/-- JS `s.trim()`: strip leading and trailing whitespace (written over the
character list so it evaluates structurally). -/
def strTrim (s : String) : String :=
  ⟨((s.data.dropWhile Char.isWhitespace).reverse.dropWhile
      Char.isWhitespace).reverse⟩

/-- The per-record transformation fetchDecks applies to each server deck
(Decks.tsx lines 115-127). -/
def transformDeck (d : ServerDeck) : Deck :=
  { id := d.id
    title := d.title
    numFlashcards := d.flashcard_count.getD 0
    difficulty :=
      if optIncludes d.description "easy" then "easy"
      else if optIncludes d.description "hard" then "hard"
      else "medium"
    questionType :=
      if optIncludes d.description "MCQ" then "mcq"
      else if optIncludes d.description "TRUE_FALSE" then "true_false"
      else "free_response"
    createdAt := d.created_at
    folder_id := d.folder_id
    order_index := d.order_index
    podcast_audio_url :=
      match d.podcast_audio_url with
      | some s => if s == "" then none else some s
      | none => none }

/-- The deck list fetchDecks installs with setDecks on a successful response:
`data.map(transformDeck)`.  The previous in-memory list `prev` is taken as an
argument to make its irrelevance provable. -/
def fetchDecksUpdate (prev : List Deck) (data : List ServerDeck) : List Deck :=
  let _ := prev
  data.map transformDeck

/-- The sort key `a.order_index || 0`: null/undefined (and 0) coalesce to 0. -/
def orderKey (d : Deck) : Int :=
  d.order_index.getD 0

/-- `.sort((a, b) => (a.order_index || 0) - (b.order_index || 0))`: an
ascending sort by `orderKey`. -/
def sortByOrder (l : List Deck) : List Deck :=
  l.insertionSort (fun a b => orderKey a ≤ orderKey b)

/-- The decks shown inside a folder (FolderItem / handleMoveDeckUp):
`decks.filter(d => d.folder_id === fid).sort(byOrderIndex)`. -/
def folderDecks (decks : List Deck) (fid : String) : List Deck :=
  sortByOrder (decks.filter (fun d => d.folder_id == some fid))

/-- `const rootDecks = decks.filter(deck => !deck.folder_id)`. -/
def rootDecks (decks : List Deck) : List Deck :=
  decks.filter (fun d => isFalsyStr d.folder_id)

/-- A reorder request POSTed to /decks/folder/{folderId}/reorder. -/
structure ReorderRequest where
  folderId : String
  deck_order : List String
deriving Repr, DecidableEq

/-- handleMoveDeckUp (Decks.tsx lines 277-292): the reorder requests it
issues (empty when it returns early).  The early return fires when
`!deck.folder_id` (undefined, null or "") or `order_index` is null or
undefined; JS findIndex yielding -1 is `findIdx? = none` and falls under
the `currentIndex <= 0` early return. -/
def handleMoveDeckUp (decks : List Deck) (deck : Deck) : List ReorderRequest :=
  match deck.folder_id, deck.order_index with
  | some fid, some _ =>
    if fid == "" then []
    else
      let fds := folderDecks decks fid
      match fds.findIdx? (fun d => d.id == deck.id) with
      | none => []
      | some i =>
        if i = 0 then []
        else
          let ids := fds.map (fun d => d.id)
          [⟨fid, (ids.set i (ids.getD (i - 1) "")).set (i - 1) (ids.getD i "")⟩]
  | _, _ => []

/-- handleMoveDeckDown (Decks.tsx lines 294-309): early return when
`currentIndex < 0 || currentIndex >= folderDecks.length - 1`. -/
def handleMoveDeckDown (decks : List Deck) (deck : Deck) : List ReorderRequest :=
  match deck.folder_id, deck.order_index with
  | some fid, some _ =>
    if fid == "" then []
    else
      let fds := folderDecks decks fid
      match fds.findIdx? (fun d => d.id == deck.id) with
      | none => []
      | some i =>
        if fds.length ≤ i + 1 then []
        else
          let ids := fds.map (fun d => d.id)
          [⟨fid, (ids.set i (ids.getD (i + 1) "")).set (i + 1) (ids.getD i "")⟩]
  | _, _ => []

/-- The expandedFolders cleanup effect (Decks.tsx lines 70-94): an id stays
exactly when its folder is found and that folder's deck filter is
non-empty. -/
def cleanupExpanded (decks : List Deck) (folders : List Folder)
    (prev : List String) : List String :=
  prev.filter (fun fid =>
    match folders.find? (fun f => f.id == fid) with
    | none => false
    | some _ => !(decks.filter (fun d => d.folder_id == some fid)).isEmpty)

/-! ## Effect-trace model of the Decks page handlers

Each async handler is a pure function from the component state and the
server's responses to the new state and the ordered list of its observable
effects.  An `await apiX(...)` and its response are one atomic trace event;
anything the handler did before that event happened before the server
confirmed the request. -/

/-- Observable effects of a handler run. `localStorageWrite` is in the
vocabulary so that its absence is statable; no handler in Decks.tsx emits
it. -/
inductive Ev where
  | apiPutDeckFolder (deckId : String) (folderId : Option String)
  | apiPostReorder (folderId : String) (deck_order : List String)
  | apiDeleteDeck (deckId : String)
  | apiDeleteFolder (folderId : String)
  | apiPostFolder (name : String)
  | apiGetDecks
  | apiGetFolders
  | setDecks (l : List Deck)
  | setFolders (l : List Folder)
  | toastSuccess
  | toastDestructive
  | localStorageWrite (key value : String)
deriving Repr, DecidableEq

/-- The component state the handlers read and write. -/
structure ClientState where
  decks : List Deck
  folders : List Folder
deriving Repr, DecidableEq

/-- fetchDecks (lines 109-139): on success, setDecks(transformed response);
on failure (apiGet threw), a destructive toast and no state change. -/
def fetchDecksRun (st : ClientState) (resp : Except String (List ServerDeck)) :
    ClientState × List Ev :=
  match resp with
  | .ok data =>
    ({ st with decks := data.map transformDeck },
     [.apiGetDecks, .setDecks (data.map transformDeck)])
  | .error _ => (st, [.apiGetDecks, .toastDestructive])

/-- fetchFolders (lines 141-150): on success setFolders(data || []); on
failure it silently sets folders to []. -/
def fetchFoldersRun (st : ClientState) (resp : Except String (List Folder)) :
    ClientState × List Ev :=
  match resp with
  | .ok data =>
    ({ st with folders := data }, [.apiGetFolders, .setFolders data])
  | .error _ => ({ st with folders := [] }, [.apiGetFolders, .setFolders []])

/-- fetchData (lines 96-107): fetchDecks then fetchFolders (each catches its
own errors internally). -/
def fetchDataRun (st : ClientState) (decksResp : Except String (List ServerDeck))
    (foldersResp : Except String (List Folder)) : ClientState × List Ev :=
  let rd := fetchDecksRun st decksResp
  let rf := fetchFoldersRun rd.1 foldersResp
  (rf.1, rd.2 ++ rf.2)

/-- moveDeckToFolder (lines 236-262): PUT the new folder_id; on success toast
and refetch folders then decks; on failure a destructive toast only. -/
def moveDeckToFolderRun (st : ClientState) (deckId : String)
    (folderId : Option String) (putResp : Except String Unit)
    (foldersResp : Except String (List Folder))
    (decksResp : Except String (List ServerDeck)) : ClientState × List Ev :=
  match putResp with
  | .error _ => (st, [.apiPutDeckFolder deckId folderId, .toastDestructive])
  | .ok _ =>
    let rf := fetchFoldersRun st foldersResp
    let rd := fetchDecksRun rf.1 decksResp
    (rd.1, .apiPutDeckFolder deckId folderId :: .toastSuccess :: (rf.2 ++ rd.2))

/-- handleReorderDecks (lines 264-275): POST the new order; on success
refetch decks; on failure a destructive toast only. -/
def handleReorderDecksRun (st : ClientState) (folderId : String)
    (deckOrder : List String) (postResp : Except String Unit)
    (decksResp : Except String (List ServerDeck)) : ClientState × List Ev :=
  match postResp with
  | .error _ => (st, [.apiPostReorder folderId deckOrder, .toastDestructive])
  | .ok _ =>
    let rd := fetchDecksRun st decksResp
    (rd.1, .apiPostReorder folderId deckOrder :: rd.2)

/-- handleDeleteDeck (lines 216-233): DELETE; on success toast and refetch
decks; on failure a destructive toast only. -/
def handleDeleteDeckRun (st : ClientState) (deckId : String)
    (delResp : Except String Unit)
    (decksResp : Except String (List ServerDeck)) : ClientState × List Ev :=
  match delResp with
  | .error _ => (st, [.apiDeleteDeck deckId, .toastDestructive])
  | .ok _ =>
    let rd := fetchDecksRun st decksResp
    (rd.1, .apiDeleteDeck deckId :: .toastSuccess :: rd.2)

/-- handleDeleteFolder (lines 185-202): DELETE the folder; on success toast
and fetchData; on failure a destructive toast only. -/
def handleDeleteFolderRun (st : ClientState) (folderId : String)
    (delResp : Except String Unit)
    (decksResp : Except String (List ServerDeck))
    (foldersResp : Except String (List Folder)) : ClientState × List Ev :=
  match delResp with
  | .error _ => (st, [.apiDeleteFolder folderId, .toastDestructive])
  | .ok _ =>
    let r := fetchDataRun st decksResp foldersResp
    (r.1, .apiDeleteFolder folderId :: .toastSuccess :: r.2)

/-- handleCreateFolder (lines 152-183): a blank trimmed name toasts and
returns before any request; otherwise POST, and on success refetch folders
then toast; on failure a destructive toast only. -/
def handleCreateFolderRun (st : ClientState) (name : String)
    (postResp : Except String Unit)
    (foldersResp : Except String (List Folder)) : ClientState × List Ev :=
  if (strTrim name) == "" then (st, [.toastDestructive])
  else
    match postResp with
    | .error _ => (st, [.apiPostFolder name, .toastDestructive])
    | .ok _ =>
      let rf := fetchFoldersRun st foldersResp
      (rf.1, .apiPostFolder name :: (rf.2 ++ [.toastSuccess]))

/-- True on the trace events that record a mutation request reaching the
server (the awaited PUT/POST/DELETE of a deck/folder mutation). -/
def isMutationReq : Ev → Bool
  | .apiPutDeckFolder _ _ => true
  | .apiPostReorder _ _ => true
  | .apiDeleteDeck _ => true
  | .apiDeleteFolder _ => true
  | .apiPostFolder _ => true
  | _ => false

/-- True on events that update the in-memory deck collection. -/
def isSetDecks : Ev → Bool
  | .setDecks _ => true
  | _ => false

/-- True on localStorage writes. -/
def isStorageWrite : Ev → Bool
  | .localStorageWrite _ _ => true
  | _ => false

/-- A trace performs an optimistic deck update when some setDecks event
precedes the mutation request event. -/
def optimisticDeckUpdate (tr : List Ev) : Bool :=
  (tr.takeWhile (fun e => !isMutationReq e)).any isSetDecks

/-- Modelled from the spec: the backend handler for DELETE /folders/{id} is
not among the repository's sources (only the React frontend is present; the
FastAPI backend the README describes is missing), so its effect on the stored
records is modelled from the spec's words: "Containment of decks is by
reference only (no cascading delete semantics beyond 'move orphaned decks to
root')" together with the client's own description of the operation, "The
folder has been removed and its decks moved to root."  The folder record is
removed; every deck that referenced it has its folder reference cleared and
is otherwise untouched; other decks are untouched. -/
def serverDeleteFolder (folders : List Folder) (decks : List Deck)
    (folderId : String) : List Folder × List Deck :=
  (folders.filter (fun f => !(f.id == folderId)),
   decks.map (fun d =>
     if d.folder_id == some folderId then { d with folder_id := none } else d))

/-! ## The flashcard-generation form (FlashcardGenerator) -/

/-- The formData state of FlashcardGenerator; `numFlashcards` is
`number | ''`, with `none` standing for the cleared field ''. -/
structure GenForm where
  deckTitle : String
  numFlashcards : Option Int
  difficulty : String
  questionType : String
  textContent : String
deriving Repr, DecidableEq

/-- `isFormValid` (FlashcardGenerator lines 40-47), with `hasFile` the
truthiness of the `file` state. -/
def isFormValid (f : GenForm) (hasFile : Bool) : Bool :=
  decide (3 ≤ (strTrim f.deckTitle).length) &&
  (match f.numFlashcards with
   | some n => decide (1 ≤ n) && decide (n ≤ 50)
   | none => false) &&
  !(f.difficulty == "") &&
  !(f.questionType == "") &&
  (decide (0 < (strTrim f.textContent).length) || hasFile)

/-- What one call of handleSubmit does: either a validation toast and no
request, or exactly one upload request with the multipart payload it
builds. -/
inductive SubmitOutcome where
  | validationToast
  | request (deck_title : String) (num_flashcards : Int)
      (difficulty_level : String) (question_type : String)
      (text_content : Option String) (withFile : Bool)
deriving Repr, DecidableEq

/-- handleSubmit (FlashcardGenerator lines 49-133) up to the single apiUpload
call: the guard is `isFormValid`, and the payload fields are appended exactly
as the code does (text_content only when its trim is non-empty). -/
def handleSubmit (f : GenForm) (hasFile : Bool) : SubmitOutcome :=
  if isFormValid f hasFile then
    .request f.deckTitle
      (match f.numFlashcards with | some n => n | none => 10)
      f.difficulty f.questionType
      (if (strTrim f.textContent) == "" then none else some f.textContent)
      hasFile
  else
    .validationToast

/-- True exactly on the request outcome. -/
def isRequest : SubmitOutcome → Bool
  | .request _ _ _ _ _ _ => true
  | .validationToast => false

/-! ## Helper lemmas -/

instance : IsTotal Deck (fun a b => orderKey a ≤ orderKey b) :=
  ⟨fun a b => Int.le_total (orderKey a) (orderKey b)⟩

instance : IsTrans Deck (fun a b => orderKey a ≤ orderKey b) :=
  ⟨fun _ _ _ hab hbc => le_trans hab hbc⟩

theorem isFalsyStr_iff (o : Option String) :
    isFalsyStr o = true ↔ o = none ∨ o = some "" := by
  cases o with
  | none => simp [isFalsyStr]
  | some s => simp [isFalsyStr]

/-- The JS destructuring swap of two consecutive slots, written with `set`,
as a take/drop decomposition (assigning the higher index first). -/
theorem set_set_swap (l : List α) (d : α) (j : Nat) (h : j + 1 < l.length) :
    (l.set (j + 1) (l.getD j d)).set j (l.getD (j + 1) d) =
      l.take j ++ l.getD (j + 1) d :: l.getD j d :: l.drop (j + 2) := by
  induction l generalizing j with
  | nil => simp at h
  | cons a t ih =>
    cases j with
    | zero =>
      cases t with
      | nil => simp at h
      | cons b t2 => simp
    | succ k =>
      have hk : k + 1 < t.length := by
        simpa using Nat.lt_of_succ_lt_succ h
      simp only [List.getD_cons_succ, List.set_cons_succ, List.take_succ_cons,
        List.drop_succ_cons, List.cons_append]
      exact congrArg (a :: ·) (ih k hk)

/-- The same swap assigning the lower index first. -/
theorem set_set_swap_lower (l : List α) (d : α) (j : Nat) (h : j + 1 < l.length) :
    (l.set j (l.getD (j + 1) d)).set (j + 1) (l.getD j d) =
      l.take j ++ l.getD (j + 1) d :: l.getD j d :: l.drop (j + 2) := by
  rw [List.set_comm _ _ _ (by omega)]
  exact set_set_swap l d j h

/-- Decomposition of a list around two consecutive positions. -/
theorem take_getD_getD_drop (l : List α) (d : α) (j : Nat) (h : j + 1 < l.length) :
    l = l.take j ++ l.getD j d :: l.getD (j + 1) d :: l.drop (j + 2) := by
  have hj : j < l.length := Nat.lt_of_succ_lt h
  have h1 : l.drop j = l.getD j d :: l.drop (j + 1) := by
    rw [List.drop_eq_getElem_cons hj]
    simp [List.getD_eq_getElem?_getD, List.getElem?_eq_getElem hj]
  have h2 : l.drop (j + 1) = l.getD (j + 1) d :: l.drop (j + 2) := by
    rw [List.drop_eq_getElem_cons h]
    simp [List.getD_eq_getElem?_getD, List.getElem?_eq_getElem h]
  conv_lhs => rw [← List.take_append_drop j l, h1, h2]

/-! ## The claims -/

/-- C2: whenever fetchDecks receives a server response, the in-memory deck
collection is replaced wholesale: one entry per server record, the previous
list having no influence, each entry's difficulty being "easy"/"hard"/"medium"
and its question type "mcq"/"true_false"/"free_response" according to the
substring tests on the record's description. -/
theorem C2_fetchDecks_replaces_wholesale (prev prev2 : List Deck)
    (data : List ServerDeck) :
    fetchDecksUpdate prev data = fetchDecksUpdate prev2 data ∧
    (fetchDecksUpdate prev data).length = data.length ∧
    ∀ (i : Nat) (sd : ServerDeck), data[i]? = some sd →
      ∃ d : Deck, (fetchDecksUpdate prev data)[i]? = some d ∧
        d.id = sd.id ∧
        (optIncludes sd.description "easy" = true → d.difficulty = "easy") ∧
        (optIncludes sd.description "easy" = false →
          optIncludes sd.description "hard" = true → d.difficulty = "hard") ∧
        (optIncludes sd.description "easy" = false →
          optIncludes sd.description "hard" = false → d.difficulty = "medium") ∧
        (optIncludes sd.description "MCQ" = true → d.questionType = "mcq") ∧
        (optIncludes sd.description "MCQ" = false →
          optIncludes sd.description "TRUE_FALSE" = true →
          d.questionType = "true_false") ∧
        (optIncludes sd.description "MCQ" = false →
          optIncludes sd.description "TRUE_FALSE" = false →
          d.questionType = "free_response") := by
  refine ⟨rfl, by simp [fetchDecksUpdate], ?_⟩
  intro i sd hsd
  refine ⟨transformDeck sd, ?_, rfl, ?_, ?_, ?_, ?_, ?_, ?_⟩
  · simp [fetchDecksUpdate, hsd]
  · intro h; simp [transformDeck, h]
  · intro h1 h2; simp [transformDeck, h1, h2]
  · intro h1 h2; simp [transformDeck, h1, h2]
  · intro h; simp [transformDeck, h]
  · intro h1 h2; simp [transformDeck, h1, h2]
  · intro h1 h2; simp [transformDeck, h1, h2]

/-- C2 witness: a concrete server record whose description mentions "easy"
and "MCQ" is transformed accordingly. -/
theorem C2_fetchDecks_replaces_wholesale_witness :
    ∃ d, (fetchDecksUpdate []
        [{ id := "s1", title := "t", created_at := "now",
           description := some "easy MCQ deck" : ServerDeck }])[0]? = some d ∧
      d.id = "s1" ∧ d.difficulty = "easy" ∧ d.questionType = "mcq" := by
  obtain ⟨d, hd, hid, heasy, -, -, hmcq, -, -⟩ :=
    (C2_fetchDecks_replaces_wholesale [] []
      [{ id := "s1", title := "t", created_at := "now",
         description := some "easy MCQ deck" }]).2.2 0 _ rfl
  exact ⟨d, hd, hid, heasy (by decide), hmcq (by decide)⟩

/-- C5: the decks displayed inside a folder are exactly the decks whose
folder_id equals that folder's id, listed ascending by order_index with a
missing index read as 0, and the root section holds exactly the decks with an
absent (undefined, null or empty) folder reference. -/
theorem C5_folder_and_root_views (decks : List Deck) (f : Folder) :
    (∀ d, d ∈ folderDecks decks f.id ↔ d ∈ decks ∧ d.folder_id = some f.id) ∧
    List.Pairwise (fun a b => a.order_index.getD 0 ≤ b.order_index.getD 0)
      (folderDecks decks f.id) ∧
    List.Perm (folderDecks decks f.id)
      (decks.filter (fun d => d.folder_id == some f.id)) ∧
    (∀ d, d ∈ rootDecks decks ↔
      d ∈ decks ∧ (d.folder_id = none ∨ d.folder_id = some "")) := by
  refine ⟨?_, ?_, ?_, ?_⟩
  · intro d
    unfold folderDecks sortByOrder
    rw [List.mem_insertionSort, List.mem_filter]
    simp
  · exact List.sorted_insertionSort (fun a b => orderKey a ≤ orderKey b) _
  · exact List.perm_insertionSort _ _
  · intro d
    unfold rootDecks
    rw [List.mem_filter, isFalsyStr_iff]

/-- C7: after the cleanup effect, an id is kept in expandedFolders exactly
when it was there before, its folder exists in the current folder collection,
and some deck's folder_id equals it. -/
theorem C7_expanded_cleanup (decks : List Deck) (folders : List Folder)
    (prev : List String) (fid : String) :
    fid ∈ cleanupExpanded decks folders prev ↔
      fid ∈ prev ∧ (∃ f ∈ folders, f.id = fid) ∧
        ∃ d ∈ decks, d.folder_id = some fid := by
  unfold cleanupExpanded
  rw [List.mem_filter]
  refine and_congr_right fun _ => ?_
  cases hf : folders.find? (fun f => f.id == fid) with
  | none =>
    rw [List.find?_eq_none] at hf
    simp only [Bool.false_eq_true, false_iff, not_and]
    intro hex
    obtain ⟨g, hg, hgid⟩ := hex
    exact absurd (by simpa using hgid) (fun h => by simpa [h] using hf g hg)
  | some fl =>
    have hmem : fl ∈ folders := List.mem_of_find?_eq_some hf
    have hid : fl.id = fid := by simpa using List.find?_some hf
    simp only [Bool.not_eq_true', List.isEmpty_eq_false_iff_exists_mem]
    constructor
    · rintro ⟨d, hd⟩
      rw [List.mem_filter] at hd
      exact ⟨⟨fl, hmem, hid⟩, d, hd.1, by simpa using hd.2⟩
    · rintro ⟨-, d, hd, hdf⟩
      exact ⟨d, List.mem_filter.2 ⟨hd, by simpa using hdf⟩⟩

theorem string_length_zero_iff (s : String) : s.length = 0 ↔ s = "" := by
  constructor
  · intro h
    apply String.ext
    simpa using List.length_eq_zero.mp h
  · intro h
    subst h
    rfl

/-- C10: handleSubmit sends the upload request exactly when the form is
valid (trimmed title length at least 3, a numeric card count in [1, 50],
non-empty difficulty and question type, and non-blank text or an attached
file); otherwise it produces the validation toast and no request. -/
theorem C10_submit_iff_valid (f : GenForm) (hasFile : Bool) :
    (isRequest (handleSubmit f hasFile) = true ↔
      (3 ≤ (strTrim f.deckTitle).length ∧
       (∃ n : Int, f.numFlashcards = some n ∧ 1 ≤ n ∧ n ≤ 50) ∧
       f.difficulty ≠ "" ∧ f.questionType ≠ "" ∧
       (strTrim f.textContent ≠ "" ∨ hasFile = true))) ∧
    (handleSubmit f hasFile = SubmitOutcome.validationToast ↔
      isRequest (handleSubmit f hasFile) = false) := by
  constructor
  · have hreq : isRequest (handleSubmit f hasFile) = isFormValid f hasFile := by
      by_cases h : isFormValid f hasFile = true
      · simp [handleSubmit, h, isRequest]
      · rw [Bool.not_eq_true] at h
        simp [handleSubmit, h, isRequest]
    rw [hreq]
    unfold isFormValid
    cases hn : f.numFlashcards with
    | none =>
      simp [hn]
    | some n =>
      simp only [hn, Bool.and_eq_true, decide_eq_true_eq, Bool.or_eq_true,
        Bool.not_eq_true', beq_eq_false_iff_ne, Option.some.injEq]
      constructor
      · rintro ⟨⟨⟨⟨h3, h1, h50⟩, hd⟩, hq⟩, htf⟩
        refine ⟨h3, ⟨n, rfl, h1, h50⟩, hd, hq, ?_⟩
        rcases htf with ht | hf2
        · exact Or.inl fun hemp => by
            rw [hemp] at ht
            simp at ht
        · exact Or.inr hf2
      · rintro ⟨h3, ⟨m, hm, h1, h50⟩, hd, hq, htf⟩
        obtain rfl : n = m := by simpa using hm
        refine ⟨⟨⟨⟨h3, h1, h50⟩, hd⟩, hq⟩, ?_⟩
        rcases htf with ht | hf2
        · refine Or.inl ?_
          rcases Nat.eq_zero_or_pos (strTrim f.textContent).length with hz | hp
          · exact absurd ((string_length_zero_iff _).mp hz) ht
          · exact hp
        · exact Or.inr hf2
  · by_cases h : isFormValid f hasFile = true
    · simp [handleSubmit, h, isRequest]
    · rw [Bool.not_eq_true] at h
      simp [handleSubmit, h, isRequest]

/-! ## Demo records used in counterexamples and witnesses -/

/-- A concrete server deck record. -/
def demoServerDeck : ServerDeck :=
  { id := "d1", title := "Deck One", created_at := "2024-01-01" }

/-- A concrete folder record. -/
def demoFolder : Folder :=
  { id := "f1", name := "Folder One", deck_count := 1, created_at := "2024-01-01" }

/-- A concrete client deck record. -/
def demoDeck : Deck := transformDeck demoServerDeck

/-- C1 counterexample: on a concrete successful moveDeckToFolder run the
trace contains the mutation request and a later setDecks, but no update of
the in-memory deck collection precedes the server's confirmation of the PUT,
so the store is not optimistic as claimed. -/
theorem C1_cex_no_update_before_put :
    optimisticDeckUpdate
      (moveDeckToFolderRun ⟨[demoDeck], [demoFolder]⟩ "d1" (some "f1")
        (.ok ()) (.ok [demoFolder]) (.ok [demoServerDeck])).2 = false ∧
    (moveDeckToFolderRun ⟨[demoDeck], [demoFolder]⟩ "d1" (some "f1")
        (.ok ()) (.ok [demoFolder]) (.ok [demoServerDeck])).2.any isMutationReq = true ∧
    (moveDeckToFolderRun ⟨[demoDeck], [demoFolder]⟩ "d1" (some "f1")
        (.ok ()) (.ok [demoFolder]) (.ok [demoServerDeck])).2.any isSetDecks = true := by
  exact ⟨rfl, rfl, rfl⟩

/-- C1 (amended): moveDeckToFolder is not optimistic: no setDecks precedes
the PUT in any run; on a failed PUT the state is untouched, and on success
the client reconciles by refetching, ending with the deck collection equal to
the transformed server response and the folder collection equal to the
server's folder list. -/
theorem C1_amended_move_reconciles (st : ClientState) (deckId : String)
    (folderId : Option String) (putResp : Except String Unit)
    (foldersResp : Except String (List Folder))
    (decksResp : Except String (List ServerDeck)) :
    optimisticDeckUpdate
      (moveDeckToFolderRun st deckId folderId putResp foldersResp decksResp).2 = false ∧
    (∀ e, putResp = .error e →
      (moveDeckToFolderRun st deckId folderId putResp foldersResp decksResp).1 = st) ∧
    (∀ u fdata ddata, putResp = .ok u → foldersResp = .ok fdata →
      decksResp = .ok ddata →
      (moveDeckToFolderRun st deckId folderId putResp foldersResp
        decksResp).1.decks = ddata.map transformDeck ∧
      (moveDeckToFolderRun st deckId folderId putResp foldersResp
        decksResp).1.folders = fdata) := by
  refine ⟨?_, ?_, ?_⟩
  · cases putResp with
    | error e => rfl
    | ok u =>
      cases foldersResp <;> cases decksResp <;>
        simp [moveDeckToFolderRun, fetchFoldersRun, fetchDecksRun,
          optimisticDeckUpdate, isMutationReq]
  · rintro e rfl
    rfl
  · rintro u fdata ddata rfl rfl rfl
    exact ⟨rfl, rfl⟩

/-- C1 amended witness: a concrete successful run ends with the server's
collections installed. -/
theorem C1_amended_move_reconciles_witness :
    (moveDeckToFolderRun ⟨[], []⟩ "d1" (some "f1") (.ok ())
      (.ok [demoFolder]) (.ok [demoServerDeck])).1.decks =
        [demoServerDeck].map transformDeck ∧
    (moveDeckToFolderRun ⟨[], []⟩ "d1" (some "f1") (.ok ())
      (.ok [demoFolder]) (.ok [demoServerDeck])).1.folders = [demoFolder] :=
  (C1_amended_move_reconciles ⟨[], []⟩ "d1" (some "f1") (.ok ())
    (.ok [demoFolder]) (.ok [demoServerDeck])).2.2 () [demoFolder]
    [demoServerDeck] rfl rfl rfl

/-- C6: when the REST request of a deck/folder mutation fails, the handler
emits exactly the mutation request and a destructive toast: the in-memory
collections are returned unchanged and no refetch or partial update occurs. -/
theorem C6_error_leaves_state (st : ClientState) (e : String)
    (deckId fid : String) (tgt : Option String) (deckOrder : List String)
    (name : String) (foldersResp : Except String (List Folder))
    (decksResp : Except String (List ServerDeck)) :
    moveDeckToFolderRun st deckId tgt (.error e) foldersResp decksResp =
      (st, [.apiPutDeckFolder deckId tgt, .toastDestructive]) ∧
    handleReorderDecksRun st fid deckOrder (.error e) decksResp =
      (st, [.apiPostReorder fid deckOrder, .toastDestructive]) ∧
    handleDeleteDeckRun st deckId (.error e) decksResp =
      (st, [.apiDeleteDeck deckId, .toastDestructive]) ∧
    handleDeleteFolderRun st fid (.error e) decksResp foldersResp =
      (st, [.apiDeleteFolder fid, .toastDestructive]) ∧
    (strTrim name ≠ "" →
      handleCreateFolderRun st name (.error e) foldersResp =
        (st, [.apiPostFolder name, .toastDestructive])) := by
  refine ⟨rfl, rfl, rfl, rfl, fun h => ?_⟩
  have hb : ((strTrim name) == "") = false := by
    simpa using h
  simp [handleCreateFolderRun, hb]

/-- C6 witness: concrete failing runs. -/
theorem C6_error_leaves_state_witness :
    handleCreateFolderRun ⟨[demoDeck], [demoFolder]⟩ "New" (.error "boom")
      (.ok [demoFolder]) =
      (⟨[demoDeck], [demoFolder]⟩, [.apiPostFolder "New", .toastDestructive]) :=
  (C6_error_leaves_state ⟨[demoDeck], [demoFolder]⟩ "boom" "d1" "f1"
    (some "f1") ["d1"] "New" (.ok [demoFolder]) (.ok [demoServerDeck])).2.2.2.2
    (by decide)

/-- C8: no deck/folder operation writes durable client-side storage (no
localStorage write appears in any trace), and after a successful mutation the
refetched collection is the transformed server response, independent of the
prior in-memory state. -/
theorem C8_volatile_state_refetched (st : ClientState)
    (deckId fid name : String) (tgt : Option String) (ord : List String)
    (putR postR delR : Except String Unit)
    (fR : Except String (List Folder)) (dR : Except String (List ServerDeck)) :
    ((moveDeckToFolderRun st deckId tgt putR fR dR).2.all
        (fun ev => !isStorageWrite ev) = true ∧
     (handleReorderDecksRun st fid ord postR dR).2.all
        (fun ev => !isStorageWrite ev) = true ∧
     (handleDeleteDeckRun st deckId delR dR).2.all
        (fun ev => !isStorageWrite ev) = true ∧
     (handleDeleteFolderRun st fid delR dR fR).2.all
        (fun ev => !isStorageWrite ev) = true ∧
     (handleCreateFolderRun st name postR fR).2.all
        (fun ev => !isStorageWrite ev) = true ∧
     (fetchDecksRun st dR).2.all (fun ev => !isStorageWrite ev) = true ∧
     (fetchFoldersRun st fR).2.all (fun ev => !isStorageWrite ev) = true) ∧
    (∀ u ddata, putR = .ok u → dR = .ok ddata →
      (moveDeckToFolderRun st deckId tgt putR fR dR).1.decks =
        ddata.map transformDeck) ∧
    (∀ u ddata, postR = .ok u → dR = .ok ddata →
      (handleReorderDecksRun st fid ord postR dR).1.decks =
        ddata.map transformDeck) ∧
    (∀ u ddata, delR = .ok u → dR = .ok ddata →
      (handleDeleteDeckRun st deckId delR dR).1.decks =
        ddata.map transformDeck ∧
      (handleDeleteFolderRun st fid delR dR fR).1.decks =
        ddata.map transformDeck) ∧
    (∀ u fdata, postR = .ok u → fR = .ok fdata → strTrim name ≠ "" →
      (handleCreateFolderRun st name postR fR).1.folders = fdata) := by
  refine ⟨⟨?_, ?_, ?_, ?_, ?_, ?_, ?_⟩, ?_, ?_, ?_, ?_⟩
  · cases putR <;> cases fR <;> cases dR <;>
      simp [moveDeckToFolderRun, fetchFoldersRun, fetchDecksRun, isStorageWrite]
  · cases postR <;> cases dR <;>
      simp [handleReorderDecksRun, fetchDecksRun, isStorageWrite]
  · cases delR <;> cases dR <;>
      simp [handleDeleteDeckRun, fetchDecksRun, isStorageWrite]
  · cases delR <;> cases fR <;> cases dR <;>
      simp [handleDeleteFolderRun, fetchDataRun, fetchFoldersRun,
        fetchDecksRun, isStorageWrite]
  · by_cases hb : ((strTrim name) == "") = true <;>
      cases postR <;> cases fR <;>
      simp [handleCreateFolderRun, hb, fetchFoldersRun, isStorageWrite]
  · cases dR <;> simp [fetchDecksRun, isStorageWrite]
  · cases fR <;> simp [fetchFoldersRun, isStorageWrite]
  · rintro u ddata rfl rfl
    cases fR <;> rfl
  · rintro u ddata rfl rfl
    rfl
  · rintro u ddata rfl rfl
    exact ⟨rfl, by cases fR <;> rfl⟩
  · rintro u fdata rfl rfl h
    have hb : ((strTrim name) == "") = false := by simpa using h
    simp [handleCreateFolderRun, hb, fetchFoldersRun]

/-- C8 witness: a concrete successful delete-deck run installs the server's
list. -/
theorem C8_volatile_state_refetched_witness :
    (handleDeleteDeckRun ⟨[demoDeck], []⟩ "d1" (.ok ())
      (.ok [demoServerDeck])).1.decks = [demoServerDeck].map transformDeck :=
  ((C8_volatile_state_refetched ⟨[demoDeck], []⟩ "d1" "f1" "New" none []
    (.ok ()) (.ok ()) (.ok ()) (.ok []) (.ok [demoServerDeck])).2.2.2.1 ()
    [demoServerDeck] rfl rfl).1

/-- C4: deleting a folder on the server (modelled from the spec, the backend
not being among the sources) removes only the folder record; no deck is
deleted, every deck that referenced the folder ends at root with all other
fields unchanged, and decks that did not reference it are untouched. -/
theorem C4_delete_folder_frame (folders : List Folder) (decks : List Deck)
    (fid : String) :
    ((serverDeleteFolder folders decks fid).2).length = decks.length ∧
    (∀ f : Folder, f ∈ (serverDeleteFolder folders decks fid).1 ↔
      f ∈ folders ∧ f.id ≠ fid) ∧
    (∀ (i : Nat) (d : Deck), decks[i]? = some d →
      ∃ d2 : Deck, (serverDeleteFolder folders decks fid).2[i]? = some d2 ∧
        (d.folder_id = some fid →
          d2.folder_id = none ∧ d2.id = d.id ∧ d2.title = d.title ∧
          d2.numFlashcards = d.numFlashcards ∧
          d2.difficulty = d.difficulty ∧
          d2.questionType = d.questionType ∧
          d2.createdAt = d.createdAt ∧
          d2.order_index = d.order_index ∧
          d2.podcast_audio_url = d.podcast_audio_url) ∧
        (d.folder_id ≠ some fid → d2 = d)) := by
  refine ⟨by simp [serverDeleteFolder], ?_, ?_⟩
  · intro f
    simp [serverDeleteFolder, List.mem_filter]
  · intro i d hd
    refine ⟨if d.folder_id == some fid then { d with folder_id := none } else d,
      ?_, ?_, ?_⟩
    · simp [serverDeleteFolder, hd]
    · intro h
      simp [h]
    · intro h
      have hb : (d.folder_id == some fid) = false := by simpa using h
      simp [hb]

/-- C4 witness: a concrete deck referencing the deleted folder is moved to
root. -/
theorem C4_delete_folder_frame_witness :
    ∃ d2 : Deck,
      (serverDeleteFolder [demoFolder]
        [{ demoDeck with folder_id := some "f1" }] "f1").2[0]? = some d2 ∧
      d2.folder_id = none ∧ d2.id = demoDeck.id := by
  obtain ⟨d2, hd2, hmoved, -⟩ :=
    (C4_delete_folder_frame [demoFolder]
      [{ demoDeck with folder_id := some "f1" }] "f1").2.2 0
      { demoDeck with folder_id := some "f1" } rfl
  obtain ⟨hnone, hid, -⟩ := hmoved rfl
  exact ⟨d2, hd2, hnone, hid⟩

/-- A deck whose folder reference is the non-null empty string. -/
def orphanDeck : Deck :=
  { id := "d0", title := "Orphan", numFlashcards := 0, difficulty := "medium",
    questionType := "free_response", createdAt := "2024-01-01",
    folder_id := some "", order_index := none, podcast_audio_url := none }

/-- C9 counterexample: a deck whose folder_id is the non-null empty string
matches no folder, yet it is rendered in the root section (JS falsiness of ""
puts it into rootDecks), so it does not vanish from view as claimed. -/
theorem C9_cex_empty_string_orphan_in_root :
    orphanDeck.folder_id = some "" ∧
    (some "" : Option String) ≠ none ∧
    (∀ f : Folder, f ∈ [demoFolder] → f.id ≠ "") ∧
    orphanDeck ∈ rootDecks [orphanDeck] := by
  refine ⟨rfl, by simp, ?_, ?_⟩
  · intro f hf
    rw [List.mem_singleton] at hf
    subst hf
    decide
  · decide

/-- C9 (amended): a deck whose folder_id is non-null and non-empty but
matches no fetched folder appears nowhere: it is neither in the root section
nor among any rendered folder's decks. -/
theorem C9_amended_orphans_hidden (decks : List Deck) (folders : List Folder)
    (deck : Deck) (fid : String) (hfid : deck.folder_id = some fid)
    (hne : fid ≠ "") (horph : ∀ f ∈ folders, f.id ≠ fid) :
    deck ∉ rootDecks decks ∧ ∀ f ∈ folders, deck ∉ folderDecks decks f.id := by
  constructor
  · intro hmem
    unfold rootDecks at hmem
    rw [List.mem_filter] at hmem
    have := hmem.2
    rw [hfid] at this
    exact hne (by simpa [isFalsyStr] using this)
  · intro f hf hmem
    unfold folderDecks sortByOrder at hmem
    rw [List.mem_insertionSort, List.mem_filter] at hmem
    have := hmem.2
    rw [hfid] at this
    have h2 : fid = f.id := by simpa using this
    exact horph f hf h2.symm

/-- C9 amended witness: a concrete orphan deck is hidden everywhere. -/
theorem C9_amended_orphans_hidden_witness :
    { orphanDeck with folder_id := some "ghost" } ∉
      rootDecks [{ orphanDeck with folder_id := some "ghost" }] ∧
    ∀ f ∈ [demoFolder],
      { orphanDeck with folder_id := some "ghost" } ∉
        folderDecks [{ orphanDeck with folder_id := some "ghost" }] f.id :=
  C9_amended_orphans_hidden _ [demoFolder] _ "ghost" rfl (by decide)
    (fun f hf => by
      rw [List.mem_singleton] at hf
      subst hf
      decide)

theorem handleMoveDeckUp_eq (decks : List Deck) (deck : Deck) (fid : String)
    (oi : Int) (hfid : deck.folder_id = some fid)
    (hoi : deck.order_index = some oi) (hne : (fid == "") = false) :
    handleMoveDeckUp decks deck =
      match (folderDecks decks fid).findIdx? (fun d => d.id == deck.id) with
      | none => []
      | some i =>
        if i = 0 then []
        else
          [⟨fid, (((folderDecks decks fid).map (fun d => d.id)).set i
              (((folderDecks decks fid).map (fun d => d.id)).getD (i - 1)
                "")).set (i - 1)
              (((folderDecks decks fid).map (fun d => d.id)).getD i "")⟩] := by
  unfold handleMoveDeckUp
  rw [hfid, hoi]
  simp [hne]

theorem handleMoveDeckDown_eq (decks : List Deck) (deck : Deck) (fid : String)
    (oi : Int) (hfid : deck.folder_id = some fid)
    (hoi : deck.order_index = some oi) (hne : (fid == "") = false) :
    handleMoveDeckDown decks deck =
      match (folderDecks decks fid).findIdx? (fun d => d.id == deck.id) with
      | none => []
      | some i =>
        if (folderDecks decks fid).length ≤ i + 1 then []
        else
          [⟨fid, (((folderDecks decks fid).map (fun d => d.id)).set i
              (((folderDecks decks fid).map (fun d => d.id)).getD (i + 1)
                "")).set (i + 1)
              (((folderDecks decks fid).map (fun d => d.id)).getD i "")⟩] := by
  unfold handleMoveDeckDown
  rw [hfid, hoi]
  simp [hne]

/-- C3: for a deck with a present, non-empty folder reference and a present
order index, handleMoveDeckUp finds the deck's position in the folder's decks
sorted ascending by order_index (missing index read as 0); if the deck is
first it issues no request, otherwise exactly one reorder request whose
deck_order is the sorted id list with the deck and its immediate predecessor
swapped.  handleMoveDeckDown is symmetric with the immediate successor and
the last position, and both issue nothing when folder_id or order_index is
absent. -/
theorem C3_reorder_swaps_neighbor (decks : List Deck) (deck : Deck)
    (fid : String) :
    ((deck.folder_id = none ∨ deck.folder_id = some "" ∨
        deck.order_index = none) →
      handleMoveDeckUp decks deck = [] ∧ handleMoveDeckDown decks deck = []) ∧
    (deck ∈ decks → deck.folder_id = some fid → fid ≠ "" →
      deck.order_index.isSome = true →
      ∃ i : Nat,
        (folderDecks decks fid).findIdx? (fun d => d.id == deck.id) = some i ∧
        i < (folderDecks decks fid).length ∧
        (i = 0 → handleMoveDeckUp decks deck = []) ∧
        (0 < i → ∃ (l1 l2 : List String) (x y : String),
          (folderDecks decks fid).map (fun d => d.id) = l1 ++ x :: y :: l2 ∧
          l1.length = i - 1 ∧
          handleMoveDeckUp decks deck = [⟨fid, l1 ++ y :: x :: l2⟩]) ∧
        (i = (folderDecks decks fid).length - 1 →
          handleMoveDeckDown decks deck = []) ∧
        (i < (folderDecks decks fid).length - 1 →
          ∃ (l1 l2 : List String) (x y : String),
            (folderDecks decks fid).map (fun d => d.id) = l1 ++ x :: y :: l2 ∧
            l1.length = i ∧
            handleMoveDeckDown decks deck = [⟨fid, l1 ++ y :: x :: l2⟩])) := by
  constructor
  · rintro (h | h | h)
    · cases ho : deck.order_index <;>
        simp [handleMoveDeckUp, handleMoveDeckDown, h, ho]
    · cases ho : deck.order_index <;>
        simp [handleMoveDeckUp, handleMoveDeckDown, h, ho]
    · cases hf : deck.folder_id <;>
        simp [handleMoveDeckUp, handleMoveDeckDown, h, hf]
  · intro hmem hfid hne hoi
    obtain ⟨oi, hoival⟩ := Option.isSome_iff_exists.mp hoi
    have hb : (fid == "") = false := by simpa using hne
    have hmemf : deck ∈ folderDecks decks fid := by
      unfold folderDecks sortByOrder
      rw [List.mem_insertionSort, List.mem_filter]
      exact ⟨hmem, by simp [hfid]⟩
    have hsome :
        ((folderDecks decks fid).findIdx?
          (fun d => d.id == deck.id)).isSome = true := by
      rw [List.findIdx?_isSome]
      exact List.any_eq_true.mpr ⟨deck, hmemf, by simp⟩
    obtain ⟨i, hi⟩ := Option.isSome_iff_exists.mp hsome
    have hilt : i < (folderDecks decks fid).length := by
      obtain ⟨h, -⟩ := List.findIdx?_eq_some_iff_getElem.mp hi
      exact h
    have hup := handleMoveDeckUp_eq decks deck fid oi hfid hoival hb
    have hdown := handleMoveDeckDown_eq decks deck fid oi hfid hoival hb
    simp only [hi] at hup hdown
    have hlenids : ((folderDecks decks fid).map (fun d => d.id)).length =
        (folderDecks decks fid).length := List.length_map _ _
    refine ⟨i, hi, hilt, ?_, ?_, ?_, ?_⟩
    · intro h0
      rw [hup, if_pos h0]
    · intro hpos
      have hii : i - 1 + 1 = i := Nat.succ_pred_eq_of_pos hpos
      have hlt2 : (i - 1) + 1 <
          ((folderDecks decks fid).map (fun d => d.id)).length := by
        rw [hii, hlenids]
        exact hilt
      have hswap := set_set_swap ((folderDecks decks fid).map (fun d => d.id))
        "" (i - 1) hlt2
      have hdecomp := take_getD_getD_drop
        ((folderDecks decks fid).map (fun d => d.id)) "" (i - 1) hlt2
      rw [hii] at hswap hdecomp
      have h12 : i - 1 + 2 = i + 1 := by omega
      rw [h12] at hswap hdecomp
      refine ⟨((folderDecks decks fid).map (fun d => d.id)).take (i - 1),
        ((folderDecks decks fid).map (fun d => d.id)).drop (i + 1),
        ((folderDecks decks fid).map (fun d => d.id)).getD (i - 1) "",
        ((folderDecks decks fid).map (fun d => d.id)).getD i "",
        hdecomp, ?_, ?_⟩
      · rw [List.length_take]
        omega
      · rw [hup, if_neg (Nat.pos_iff_ne_zero.mp hpos), hswap]
    · intro hlast
      rw [hdown, if_pos (by omega)]
    · intro hnotlast
      have hlt2 : i + 1 <
          ((folderDecks decks fid).map (fun d => d.id)).length := by
        rw [hlenids]
        omega
      have hswap := set_set_swap_lower
        ((folderDecks decks fid).map (fun d => d.id)) "" i hlt2
      have hdecomp := take_getD_getD_drop
        ((folderDecks decks fid).map (fun d => d.id)) "" i hlt2
      refine ⟨((folderDecks decks fid).map (fun d => d.id)).take i,
        ((folderDecks decks fid).map (fun d => d.id)).drop (i + 2),
        ((folderDecks decks fid).map (fun d => d.id)).getD i "",
        ((folderDecks decks fid).map (fun d => d.id)).getD (i + 1) "",
        hdecomp, ?_, ?_⟩
      · rw [List.length_take]
        omega
      · rw [hdown, if_neg (by omega), hswap]

/-- A deck with order index 1 inside folder "f1". -/
def deckA : Deck :=
  { id := "a", title := "A", numFlashcards := 0, difficulty := "medium",
    questionType := "free_response", createdAt := "2024-01-01",
    folder_id := some "f1", order_index := some 1 }

/-- A deck with order index 2 inside folder "f1". -/
def deckB : Deck :=
  { id := "b", title := "B", numFlashcards := 0, difficulty := "medium",
    questionType := "free_response", createdAt := "2024-01-01",
    folder_id := some "f1", order_index := some 2 }

/-- C3 witness: with two decks in folder "f1", the second deck's position,
requests and swaps are as the theorem states. -/
theorem C3_reorder_swaps_neighbor_witness :
    ∃ i : Nat,
      (folderDecks [deckA, deckB] "f1").findIdx?
        (fun d => d.id == deckB.id) = some i ∧
      i < (folderDecks [deckA, deckB] "f1").length ∧
      (i = 0 → handleMoveDeckUp [deckA, deckB] deckB = []) ∧
      (0 < i → ∃ (l1 l2 : List String) (x y : String),
        (folderDecks [deckA, deckB] "f1").map (fun d => d.id) =
          l1 ++ x :: y :: l2 ∧
        l1.length = i - 1 ∧
        handleMoveDeckUp [deckA, deckB] deckB = [⟨"f1", l1 ++ y :: x :: l2⟩]) ∧
      (i = (folderDecks [deckA, deckB] "f1").length - 1 →
        handleMoveDeckDown [deckA, deckB] deckB = []) ∧
      (i < (folderDecks [deckA, deckB] "f1").length - 1 →
        ∃ (l1 l2 : List String) (x y : String),
          (folderDecks [deckA, deckB] "f1").map (fun d => d.id) =
            l1 ++ x :: y :: l2 ∧
          l1.length = i ∧
          handleMoveDeckDown [deckA, deckB] deckB =
            [⟨"f1", l1 ++ y :: x :: l2⟩]) :=
  (C3_reorder_swaps_neighbor [deckA, deckB] deckB "f1").2 (by decide) rfl
    (by decide) rfl

end Quizly
